import Mathlib

/-!
Shallow embedding of the arc-plot renderer of `RNA_Fold_arcPlot.ipynb`
(repository `JingxinWangLab/RNA-Fold-arcPlot`).

The repository declares itself to contain Python 2.7 code (README: "Contains
Python 2.7 code in Jupyter Notebook"; first notebook cell: "Mac + Python 2").
Consequently `/` between two Python ints is floor division, which the
notebook's own comments acknowledge by writing `/ 2.0` ("# Use float
division") where real division is wanted.  The embedding mirrors this:
`(end_nt - start_nt) / 4` on ints becomes `Int.fdiv`, while divisions written
with a float operand (`/ 2.0`, and `max_arc_height / 4` where
`max_arc_height` is a float) become exact division in `ℚ`.

Floating-point scores are modelled as rationals.  The decimal literals used
in the notebook (`0.09691`, `0.52288`, `1`, `2`) and the decimal score
entries of a `.dp` file compare under IEEE doubles exactly as their decimal
values compare, so `ℚ` is a faithful abstraction for every comparison the
code performs.

`matplotlib` objects are modelled by plain data: an `AxesCanvas` records the
figure size, the axis limits, the tick positions and the list of `Arc`
patches in the order in which `ax.add_patch` receives them, together with
the draw priority each patch was paired with in `arc_list`.  Constant style
arguments that are identical for every arc (`theta1=0, theta2=180, lw=10,
alpha=0.5`, and the fact that the same value `j - i` is passed for both the
width and the height of the `Arc`) are not repeated in every patch; the
single shared value `j - i` is kept in the field `span`.
-/

/-- One data row of the `.dp` table: positions `i`, `j` and the
`-log10(Probability)` score column. -/
structure PairRecord where
  i : Int
  j : Int
  score : ℚ
deriving Repr, DecidableEq, Inhabited

/-- The parsed `.dp` file: the integer of the first line (`total_length` in
the code) and the data rows in file order (`prob_df`). -/
structure ProbabilityTable where
  totalLength : Int
  pairs : List PairRecord
deriving Repr, DecidableEq, Inhabited

/-- One `matplotlib.patches.Arc` as the code constructs it:
`Arc((center, 0), j - i, j - i, theta1=0, theta2=180, color=color, lw=10,
alpha=0.5)`.  `center` is the x-coordinate of the centre, `span` the value
`j - i` passed as both width and height, `color` the Matplotlib color
string. -/
structure ArcPatch where
  center : ℚ
  span : ℚ
  color : String
deriving Repr, DecidableEq, Inhabited

/-- The state of the Matplotlib figure/axes pair just before `savefig`:
figure size, axis limits, x ticks, and the patches in the order they were
added, each with the draw priority it carried in `arc_list`. -/
structure AxesCanvas where
  figWidth : Int
  figHeight : ℚ
  xlimLo : ℚ
  xlimHi : ℚ
  ylimLo : ℚ
  ylimHi : ℚ
  xticks : List Int
  patches : List (ArcPatch × Nat)
deriving Repr, DecidableEq, Inhabited

/-- The file-writing side effect of `plt.savefig`: output format, optional
dpi argument, and the file name built from the `name` parameter. -/
structure OutputSpec where
  format : String
  dpi : Option Nat
  fileName : String
deriving Repr, DecidableEq, Inhabited

/-- The only error the renderer itself raises:
`ValueError("end_nt exceeds the total length of the RNA sequence in the dp
file")`. -/
inductive RenderError where
  | rangeExceedsSequence
deriving Repr, DecidableEq

/-- Cutoff filter `prob_df = prob_df[prob_df['-log10(Probability)'] < 2]` —
the global score cutoff applied to the parsed table before anything else. -/
def retained_rows (t : ProbabilityTable) : List PairRecord :=
  t.pairs.filter (fun r => decide (r.score < 2))

/-- Window test `start_nt <= i <= end_nt and start_nt <= j <= end_nt` — the
per-row check of Step 4 of the code. -/
def in_window (s e : Int) (r : PairRecord) : Bool :=
  decide (s ≤ r.i) && decide (r.i ≤ e) && decide (s ≤ r.j) && decide (r.j ≤ e)

/-- The color/priority if-chain of Step 4:
`log_prob <= 0.09691` → green, 3; `<= 0.52288` → blue, 2; `<= 1` → yellow,
1; otherwise light grey, 0. -/
def classify (log_prob : ℚ) : String × Nat :=
  if log_prob ≤ 9691 / 100000 then ("green", 3)
  else if log_prob ≤ 52288 / 100000 then ("#1C73BE", 2)
  else if log_prob ≤ 1 then ("#F7CE12", 1)
  else ("#D3D3D3", 0)

/-- Python's `max` over a list, as used on the nonempty filtered column
difference `filtered_prob_df['j'] - filtered_prob_df['i']`. -/
def maxListQ : List ℚ → ℚ
  | [] => 0
  | [x] => x
  | x :: y :: xs => max x (maxListQ (y :: xs))

/-- The arc built for one retained in-window row:
`center = (i + j) / 2.0` (float division), the `Arc` receives `j - i` for
width and height, and the color/priority pair comes from the if-chain. -/
def mkArcEntry (r : PairRecord) : ArcPatch × Nat :=
  ({ center := ((r.i : ℚ) + (r.j : ℚ)) / 2
     span := (r.j : ℚ) - (r.i : ℚ)
     color := (classify r.score).1 },
   (classify r.score).2)

/-- Step 4's loop over `prob_df.iterrows()`: append an `(Arc, priority)`
entry for every row whose `i` and `j` both lie in
`[start_nt, end_nt]`. -/
def arc_entries (df : List PairRecord) (s e : Int) : List (ArcPatch × Nat) :=
  df.filterMap (fun r => if in_window s e r then some (mkArcEntry r) else none)

/-- The key comparison of `arc_list.sort(key=lambda x: x[1])`. -/
def prioRel (a b : ArcPatch × Nat) : Prop :=
  a.2 ≤ b.2

instance : DecidableRel prioRel :=
  fun a b => Nat.decLe a.2 b.2

instance : IsTotal (ArcPatch × Nat) prioRel :=
  ⟨fun a b => Nat.le_total a.2 b.2⟩

instance : IsTrans (ArcPatch × Nat) prioRel :=
  ⟨fun _ _ _ => Nat.le_trans⟩

/-- Step 5: `arc_list.sort(key=lambda x: x[1])`.  Python's `list.sort` is a
stable sort keyed on the second component; `List.insertionSort` is a stable
sort, and a stable sorted permutation of a list is unique, so the two
agree. -/
def sortByPriority (l : List (ArcPatch × Nat)) : List (ArcPatch × Nat) :=
  l.insertionSort prioRel

/-- Python's `range(a, b)` over ints, used for
`x_range = range(start_nt, end_nt + 1)`. -/
def intRange (a b : Int) : List Int :=
  (List.range (b - a).toNat).map (fun k => a + k)

/-- Steps 3–6 of `generate_arc_plot` (common to the PDF and the SVG cell):
window filter for the height, `max_arc_height`, figure size (`fig_width`
is Python 2 int division by 4), axis limits, ticks, and the patches added
in sorted order. -/
def canvas_model (start_nt end_nt : Int) (t : ProbabilityTable) : AxesCanvas :=
  let prob_df := retained_rows t
  let filtered_prob_df :=
    prob_df.filter (fun r => decide (r.j ≤ end_nt) && decide (start_nt ≤ r.i))
  let max_arc_height : ℚ :=
    if filtered_prob_df.isEmpty then 0
    else maxListQ (filtered_prob_df.map (fun r => (r.j : ℚ) - (r.i : ℚ))) / 2
  { figWidth := Int.fdiv (end_nt - start_nt) 4
    figHeight := max_arc_height / 4
    xlimLo := (start_nt : ℚ) - 1 / 2
    xlimHi := (end_nt : ℚ) + 1 / 2
    ylimLo := 0
    ylimHi := max_arc_height + 1 / 2
    xticks := intRange start_nt (end_nt + 1)
    patches := sortByPriority (arc_entries prob_df start_nt end_nt) }

/-- The `generate_arc_plot` of the PDF cell (Section 2a, PDF): after the
score cutoff, the single validation `end_nt > total_length` raises; on
success the canvas is built and `plt.savefig('{}.pdf'.format(name),
format='pdf', bbox_inches='tight', dpi=300)` is issued. -/
def generate_arc_plot_pdf (start_nt end_nt : Int) (t : ProbabilityTable)
    (name : String) : Except RenderError (AxesCanvas × OutputSpec) :=
  if end_nt > t.totalLength then
    Except.error RenderError.rangeExceedsSequence
  else
    Except.ok (canvas_model start_nt end_nt t,
      { format := "pdf", dpi := some 300, fileName := name ++ ".pdf" })

/-- The `generate_arc_plot` of the SVG cell (Section 2a, SVG): identical
pipeline, but `plt.savefig('{}.svg'.format(name), format='svg',
bbox_inches='tight')` with no dpi argument. -/
def generate_arc_plot_svg (start_nt end_nt : Int) (t : ProbabilityTable)
    (name : String) : Except RenderError (AxesCanvas × OutputSpec) :=
  if end_nt > t.totalLength then
    Except.error RenderError.rangeExceedsSequence
  else
    Except.ok (canvas_model start_nt end_nt t,
      { format := "svg", dpi := none, fileName := name ++ ".svg" })

/-- The canvas of a successful render (`default` for a failed one). -/
def canvasOf (x : Except RenderError (AxesCanvas × OutputSpec)) : AxesCanvas :=
  (x.toOption.map Prod.fst).getD default

/-- Did the render succeed (reach `savefig`)? -/
def rendersOk (x : Except RenderError (AxesCanvas × OutputSpec)) : Bool :=
  match x with
  | Except.ok _ => true
  | Except.error _ => false

/-- The score-retained rows with both coordinates inside the window: the
rows for which Step 4 builds an arc. -/
def window_rows (t : ProbabilityTable) (s e : Int) : List PairRecord :=
  (retained_rows t).filter (in_window s e)

/-- Modelled from the spec: `max_half_span = max(span/2 over arcs actually
falling fully within [start_nt, end_nt])`, or `0` if no arcs qualify, with
`span = |j - i|` per the spec's `Arc` definition.  Stated here only to be
compared with the code's `max_arc_height` computation. -/
def spec_max_half_span (t : ProbabilityTable) (s e : Int) : ℚ :=
  if (t.pairs.filter (fun r => decide (r.score < 2) && in_window s e r)).isEmpty
  then 0
  else maxListQ ((t.pairs.filter
    (fun r => decide (r.score < 2) && in_window s e r)).map
      (fun r => |(r.j : ℚ) - (r.i : ℚ)| / 2))

/-- The worked table of the spec's end-to-end scenario: header `20`, five
rows. -/
def scenarioTable : ProbabilityTable :=
  { totalLength := 20
    pairs := [⟨5, 15, 1/20⟩, ⟨6, 14, 3/10⟩, ⟨7, 13, 9/10⟩,
              ⟨8, 12, 3/2⟩, ⟨9, 11, 5/2⟩] }

/-! ## Helper lemmas -/

/-- On a window-respecting request the PDF renderer reaches `savefig`. -/
lemma generate_pdf_eq_ok (s e : Int) (t : ProbabilityTable) (nm : String)
    (h : e ≤ t.totalLength) :
    generate_arc_plot_pdf s e t nm =
      Except.ok (canvas_model s e t,
        { format := "pdf", dpi := some 300, fileName := nm ++ ".pdf" }) := by
  unfold generate_arc_plot_pdf
  rw [if_neg (by omega)]

/-- On a window-respecting request the SVG renderer reaches `savefig`. -/
lemma generate_svg_eq_ok (s e : Int) (t : ProbabilityTable) (nm : String)
    (h : e ≤ t.totalLength) :
    generate_arc_plot_svg s e t nm =
      Except.ok (canvas_model s e t,
        { format := "svg", dpi := none, fileName := nm ++ ".svg" }) := by
  unfold generate_arc_plot_svg
  rw [if_neg (by omega)]

/-- The canvas of a successful PDF render is `canvas_model`. -/
lemma canvasOf_pdf (s e : Int) (t : ProbabilityTable) (nm : String)
    (h : e ≤ t.totalLength) :
    canvasOf (generate_arc_plot_pdf s e t nm) = canvas_model s e t := by
  rw [generate_pdf_eq_ok s e t nm h]; rfl

/-- The canvas of a successful SVG render is `canvas_model`. -/
lemma canvasOf_svg (s e : Int) (t : ProbabilityTable) (nm : String)
    (h : e ≤ t.totalLength) :
    canvasOf (generate_arc_plot_svg s e t nm) = canvas_model s e t := by
  rw [generate_svg_eq_ok s e t nm h]; rfl

/-- The patch list of the model canvas, unfolded. -/
lemma canvas_model_patches (s e : Int) (t : ProbabilityTable) :
    (canvas_model s e t).patches =
      sortByPriority (arc_entries (retained_rows t) s e) :=
  rfl

/-- The sorted arc list is non-decreasing in the draw priority. -/
lemma sortByPriority_pairwise (l : List (ArcPatch × Nat)) :
    (sortByPriority l).Pairwise (fun a b => a.2 ≤ b.2) :=
  List.sorted_insertionSort prioRel l

/-- The sort is a permutation of its input. -/
lemma sortByPriority_perm (l : List (ArcPatch × Nat)) :
    (sortByPriority l).Perm l :=
  List.perm_insertionSort prioRel l

/-- Stability of the sort: the entries of any one priority keep their
original relative order. -/
lemma filter_sortByPriority (l : List (ArcPatch × Nat)) (p : Nat) :
    (sortByPriority l).filter (fun a => decide (a.2 = p)) =
      l.filter (fun a => decide (a.2 = p)) := by
  have hpair : (l.filter (fun a => decide (a.2 = p))).Pairwise prioRel := by
    apply List.pairwise_of_forall_mem_list
    intro a ha b hb
    have ha' : a.2 = p := of_decide_eq_true (List.mem_filter.mp ha).2
    have hb' : b.2 = p := of_decide_eq_true (List.mem_filter.mp hb).2
    show a.2 ≤ b.2
    omega
  have hsub : List.Sublist (l.filter (fun a => decide (a.2 = p)))
      (sortByPriority l) :=
    List.sublist_insertionSort hpair (List.filter_sublist l)
  have hsub2 := hsub.filter (fun a => decide (a.2 = p))
  rw [List.filter_filter] at hsub2
  have heq : (l.filter fun a => decide (a.2 = p) && decide (a.2 = p)) =
      l.filter (fun a => decide (a.2 = p)) := by
    apply List.filter_congr
    intro a _
    cases decide (a.2 = p) <;> rfl
  rw [heq] at hsub2
  have hperm : ((sortByPriority l).filter (fun a => decide (a.2 = p))).Perm
      (l.filter (fun a => decide (a.2 = p))) :=
    (sortByPriority_perm l).filter _
  exact (hsub2.eq_of_length hperm.length_eq.symm).symm

/-- The arc-building loop is the window filter followed by the per-row arc
construction. -/
lemma arc_entries_eq_map (df : List PairRecord) (s e : Int) :
    arc_entries df s e = (df.filter (in_window s e)).map mkArcEntry := by
  induction df with
  | nil => rfl
  | cons r rs ih =>
    unfold arc_entries at ih ⊢
    rw [List.filterMap_cons, List.filter_cons]
    cases h : in_window s e r
    · simp only [h, Bool.false_eq_true, if_false, ite_false, ih]
    · simp only [h, if_true, ite_true, List.map_cons, ih]

/-- An empty window (`e < s`) admits no arc. -/
lemma arc_entries_empty_window (df : List PairRecord) (s e : Int)
    (h : e < s) : arc_entries df s e = [] := by
  rw [arc_entries_eq_map]
  have : df.filter (in_window s e) = [] := by
    apply List.filter_eq_nil_iff.mpr
    intro r _
    simp only [in_window, Bool.and_eq_true, decide_eq_true_eq, not_and]
    omega
  rw [this, List.map_nil]

/-- The maximum of a pointwise halved list is half the maximum. -/
lemma maxListQ_map_div_two (l : List ℚ) :
    maxListQ (l.map (fun x => x / 2)) = maxListQ l / 2 := by
  induction l with
  | nil => simp [maxListQ]
  | cons x xs ih =>
    cases xs with
    | nil => simp [maxListQ]
    | cons y ys =>
      show max (x / 2) (maxListQ (List.map (fun x => x / 2) (y :: ys))) =
        max x (maxListQ (y :: ys)) / 2
      rw [ih, max_div_div_right (by norm_num : (0 : ℚ) ≤ 2)]

/-! ## Claims -/

/-- C6: for every request with `end_nt` greater than the `sequence_length`
read from the table's header, the renderer fails with
`RangeExceedsSequence`, fails fast before any canvas is created, and
produces no output (the result carries an error and nothing else). -/
theorem claim_range_exceeds (s e : Int) (t : ProbabilityTable) (nm : String)
    (h : t.totalLength < e) :
    generate_arc_plot_pdf s e t nm =
        Except.error RenderError.rangeExceedsSequence ∧
    generate_arc_plot_svg s e t nm =
        Except.error RenderError.rangeExceedsSequence := by
  constructor
  · unfold generate_arc_plot_pdf
    rw [if_pos h]
  · unfold generate_arc_plot_svg
    rw [if_pos h]

/-- C6 witness: the spec's example `render(table_len=50, start=10, end=60)`
fails with `RangeExceedsSequence`. -/
theorem claim_range_exceeds_witness :
    generate_arc_plot_pdf 10 60 { totalLength := 50, pairs := [] } "x" =
        Except.error RenderError.rangeExceedsSequence ∧
    generate_arc_plot_svg 10 60 { totalLength := 50, pairs := [] } "x" =
        Except.error RenderError.rangeExceedsSequence :=
  claim_range_exceeds 10 60 { totalLength := 50, pairs := [] } "x" (by decide)

/-- C2 counterexample: at the spec's own example input `start = 30`,
`end = 10` the render does not fail — the code contains no
`start_nt > end_nt` validation and defines no `InvalidRange` error — so a
canvas is created and an output file is written. -/
theorem claim_invalid_range_cex :
    rendersOk (generate_arc_plot_pdf 30 10 scenarioTable "AA") = true := by
  with_unfolding_all decide

/-- C2 amended: a request with `start_nt > end_nt` (and
`end_nt ≤ sequence_length`) is not rejected: the render succeeds, draws
zero arcs, and computes the negative figure width
`(end_nt - start_nt) fdiv 4`; only the plotting backend could reject that
width downstream. -/
theorem claim_invalid_range_amended (s e : Int) (t : ProbabilityTable)
    (nm : String) (h : e ≤ t.totalLength) (hse : e < s) :
    rendersOk (generate_arc_plot_pdf s e t nm) = true ∧
    (canvasOf (generate_arc_plot_pdf s e t nm)).patches = [] ∧
    (canvasOf (generate_arc_plot_pdf s e t nm)).figWidth < 0 := by
  rw [generate_pdf_eq_ok s e t nm h]
  refine ⟨rfl, ?_, ?_⟩
  · show (canvas_model s e t).patches = []
    rw [canvas_model_patches, arc_entries_empty_window _ _ _ hse]
    rfl
  · show Int.fdiv (e - s) 4 < 0
    exact Int.fdiv_neg' (by omega) (by norm_num)

/-- C2 amended witness at `start = 30`, `end = 10`. -/
theorem claim_invalid_range_amended_witness :
    rendersOk (generate_arc_plot_pdf 30 10 scenarioTable "AA") = true ∧
    (canvasOf (generate_arc_plot_pdf 30 10 scenarioTable "AA")).patches = [] ∧
    (canvasOf (generate_arc_plot_pdf 30 10 scenarioTable "AA")).figWidth < 0 :=
  claim_invalid_range_amended 30 10 scenarioTable "AA" (by decide) (by decide)

/-- C7 counterexample: for the window `[1, 20]` the claimed exact width
`(end_nt - start_nt) / 4 = 19 / 4` differs from the computed width, which
is the Python 2 integer division `19 / 4 = 4`. -/
theorem claim_width_scaling_cex :
    ((canvasOf (generate_arc_plot_pdf 1 20 scenarioTable "AA")).figWidth : ℚ) ≠
      ((20 : ℚ) - 1) / 4 := by
  with_unfolding_all decide

/-- C7 amended: the canvas width is the floor division
`(end_nt - start_nt) fdiv 4` (Python 2 `/` on ints); it equals
`(end_nt - start_nt) / 4` exactly only when `4` divides
`end_nt - start_nt`. -/
theorem claim_width_scaling_amended (s e : Int) (t : ProbabilityTable)
    (nm : String) (h : e ≤ t.totalLength) :
    (canvasOf (generate_arc_plot_pdf s e t nm)).figWidth = Int.fdiv (e - s) 4 ∧
    ((4 : Int) ∣ e - s →
      ((canvasOf (generate_arc_plot_pdf s e t nm)).figWidth : ℚ) =
        ((e : ℚ) - (s : ℚ)) / 4) := by
  rw [canvasOf_pdf s e t nm h]
  constructor
  · rfl
  · rintro ⟨k, hk⟩
    show ((Int.fdiv (e - s) 4 : Int) : ℚ) = ((e : ℚ) - (s : ℚ)) / 4
    have hcast : ((e : ℚ) - (s : ℚ)) = 4 * (k : ℚ) := by exact_mod_cast hk
    rw [hk, Int.mul_fdiv_cancel_left _ (by norm_num), hcast,
      mul_div_cancel_left₀ _ (by norm_num : (4 : ℚ) ≠ 0)]

/-- C7 amended witness: for the window `[1, 9]` (width divisible by 4) the
computed width is `2 = (9 - 1) / 4`. -/
theorem claim_width_scaling_amended_witness :
    (canvasOf (generate_arc_plot_pdf 1 9 scenarioTable "AA")).figWidth =
        Int.fdiv (9 - 1) 4 ∧
    ((canvasOf (generate_arc_plot_pdf 1 9 scenarioTable "AA")).figWidth : ℚ) =
        ((9 : ℚ) - (1 : ℚ)) / 4 :=
  ⟨(claim_width_scaling_amended 1 9 scenarioTable "AA" (by decide)).1,
   (claim_width_scaling_amended 1 9 scenarioTable "AA" (by decide)).2
     (by decide)⟩

/-- C8: the spec's end-to-end scenario.  The table with header `20` and
rows `(5,15,0.05), (6,14,0.3), (7,13,0.9), (8,12,1.5), (9,11,2.5)`,
rendered for `start = 1, end = 20`, retains exactly 4 rows (the `2.5` row
is dropped by the global cutoff), assigns them in row order the bands
green/3, blue/2, yellow/1, grey/0 (HIGH, MEDIUM_HIGH, MEDIUM, LOW), and
adds them to the canvas in the order LOW, MEDIUM, MEDIUM_HIGH, HIGH. -/
theorem claim_scenario :
    (retained_rows scenarioTable).length = 4 ∧
    (arc_entries (retained_rows scenarioTable) 1 20).map
        (fun a => (a.1.color, a.2)) =
      [("green", 3), ("#1C73BE", 2), ("#F7CE12", 1), ("#D3D3D3", 0)] ∧
    (canvasOf (generate_arc_plot_pdf 1 20 scenarioTable "AA")).patches.map
        (fun a => (a.1.color, a.2)) =
      [("#D3D3D3", 0), ("#F7CE12", 1), ("#1C73BE", 2), ("green", 3)] ∧
    (canvasOf (generate_arc_plot_pdf 1 20 scenarioTable "AA")).patches.length
      = 4 := by
  with_unfolding_all decide

/-- C9: on every input the PDF and the SVG renderer produce the same
canvas (same retained arcs with the same centers, spans, colors and draw
priorities, same figure size, axis limits, ticks and add order) and the
same error behaviour; they differ only in the output file written — the
PDF one always writes `name.pdf` in `pdf` format at dpi 300, the SVG one
`name.svg` in `svg` format with no dpi. -/
theorem claim_pdf_svg_equiv (s e : Int) (t : ProbabilityTable) (nm : String) :
    (generate_arc_plot_pdf s e t nm).map Prod.fst =
      (generate_arc_plot_svg s e t nm).map Prod.fst ∧
    (generate_arc_plot_pdf s e t nm).map (fun x => x.2) =
      (generate_arc_plot_pdf s e t nm).map
        (fun _ => OutputSpec.mk "pdf" (some 300) (nm ++ ".pdf")) ∧
    (generate_arc_plot_svg s e t nm).map (fun x => x.2) =
      (generate_arc_plot_svg s e t nm).map
        (fun _ => OutputSpec.mk "svg" none (nm ++ ".svg")) := by
  unfold generate_arc_plot_pdf generate_arc_plot_svg
  by_cases h : e > t.totalLength
  · rw [if_pos h, if_pos h]
    exact ⟨rfl, rfl, rfl⟩
  · rw [if_neg h, if_neg h]
    exact ⟨rfl, rfl, rfl⟩

/-- C1: for every table and valid request, the arcs are added to the canvas
(for both renderers) in non-decreasing `draw_priority` order, and the sort
is stable: within each priority the arcs keep the order of the original
table rows, so a higher-band arc is never added before — and hence never
occluded by — a lower-band arc. -/
theorem claim_arc_draw_order (s e : Int) (t : ProbabilityTable) (nm : String)
    (h : e ≤ t.totalLength) :
    (canvasOf (generate_arc_plot_pdf s e t nm)).patches.Pairwise
        (fun a b => a.2 ≤ b.2) ∧
    (canvasOf (generate_arc_plot_svg s e t nm)).patches.Pairwise
        (fun a b => a.2 ≤ b.2) ∧
    (∀ p : Nat,
      (canvasOf (generate_arc_plot_pdf s e t nm)).patches.filter
          (fun a => decide (a.2 = p)) =
        (arc_entries (retained_rows t) s e).filter
          (fun a => decide (a.2 = p))) := by
  rw [canvasOf_pdf s e t nm h, canvasOf_svg s e t nm h, canvas_model_patches]
  exact ⟨sortByPriority_pairwise _, sortByPriority_pairwise _,
    fun p => filter_sortByPriority _ p⟩

/-- C1 witness at the worked scenario, with the stability equation
instantiated at priority 3. -/
theorem claim_arc_draw_order_witness :
    (canvasOf (generate_arc_plot_pdf 1 20 scenarioTable "AA")).patches.Pairwise
        (fun a b => a.2 ≤ b.2) ∧
    (canvasOf (generate_arc_plot_pdf 1 20 scenarioTable "AA")).patches.filter
        (fun a => decide (a.2 = 3)) =
      (arc_entries (retained_rows scenarioTable) 1 20).filter
        (fun a => decide (a.2 = 3)) :=
  ⟨(claim_arc_draw_order 1 20 scenarioTable "AA" (by decide)).1,
   (claim_arc_draw_order 1 20 scenarioTable "AA" (by decide)).2.2 3⟩

/-- A table with a single unordered pair (`j < i`), both coordinates inside
the window `[1, 20]`. -/
def reversedPairTable : ProbabilityTable :=
  { totalLength := 20, pairs := [⟨15, 5, 1/2⟩] }

/-- C3 counterexample: for the row `(i = 15, j = 5)` the drawn arc has
`span = j - i = -10`, not the claimed absolute difference `10`; the drawn
span is negative. -/
theorem claim_arc_geometry_cex :
    (canvasOf (generate_arc_plot_pdf 1 20 reversedPairTable "AA")).patches.map
        (fun a => a.1.span) = [(-10 : ℚ)] ∧
    ¬ (0 : ℚ) ≤ (-10 : ℚ) := by
  with_unfolding_all decide

/-- C3 amended: every retained in-window record contributes exactly one arc
with `center = (i + j) / 2` and `span = j - i` — the signed difference,
with no absolute value taken, so the span is negative whenever
`j < i`. -/
theorem claim_arc_geometry_amended (s e : Int) (t : ProbabilityTable)
    (nm : String) (h : e ≤ t.totalLength) :
    ((canvasOf (generate_arc_plot_pdf s e t nm)).patches.map
        (fun a => (a.1.center, a.1.span))).Perm
      ((window_rows t s e).map
        (fun r => (((r.i : ℚ) + (r.j : ℚ)) / 2, (r.j : ℚ) - (r.i : ℚ)))) := by
  rw [canvasOf_pdf s e t nm h, canvas_model_patches, arc_entries_eq_map]
  refine ((sortByPriority_perm _).map _).trans ?_
  rw [List.map_map]
  exact List.Perm.refl _

/-- C3 amended witness on the reversed-pair table. -/
theorem claim_arc_geometry_amended_witness :
    ((canvasOf (generate_arc_plot_pdf 1 20 reversedPairTable "AA")).patches.map
        (fun a => (a.1.center, a.1.span))).Perm
      ((window_rows reversedPairTable 1 20).map
        (fun r => (((r.i : ℚ) + (r.j : ℚ)) / 2, (r.j : ℚ) - (r.i : ℚ)))) :=
  claim_arc_geometry_amended 1 20 reversedPairTable "AA" (by decide)

/-- C5: the band thresholds are inclusive at each upper bound — exactly
`0.09691` is HIGH (green, 3), `(0.09691, 0.52288]` is MEDIUM_HIGH (blue,
2), `(0.52288, 1]` is MEDIUM (yellow, 1) so exactly `1` is MEDIUM, any
score strictly above `1` classifies LOW (light grey, 0) — and every record
with score `≥ 2` is dropped from `prob_df` before any arc is
considered. -/
theorem claim_thresholds (x : ℚ) (r : PairRecord) (t : ProbabilityTable) :
    classify (9691 / 100000) = ("green", 3) ∧
    (9691 / 100000 < x → x ≤ 52288 / 100000 →
      classify x = ("#1C73BE", 2)) ∧
    (52288 / 100000 < x → x ≤ 1 → classify x = ("#F7CE12", 1)) ∧
    classify 1 = ("#F7CE12", 1) ∧
    (1 < x → classify x = ("#D3D3D3", 0)) ∧
    (2 ≤ r.score → r ∉ retained_rows t) := by
  refine ⟨?_, ?_, ?_, ?_, ?_, ?_⟩
  · unfold classify
    rw [if_pos le_rfl]
  · intro h1 h2
    unfold classify
    rw [if_neg (not_le.mpr h1), if_pos h2]
  · intro h1 h2
    unfold classify
    rw [if_neg (not_le.mpr (lt_of_le_of_lt (by norm_num) h1)),
      if_neg (not_le.mpr h1), if_pos h2]
  · unfold classify
    rw [if_neg (by norm_num), if_neg (by norm_num), if_pos le_rfl]
  · intro h1
    unfold classify
    rw [if_neg (not_le.mpr (lt_of_le_of_lt (by norm_num) h1)),
      if_neg (not_le.mpr (lt_of_le_of_lt (by norm_num) h1)),
      if_neg (not_le.mpr h1)]
  · intro h2 hmem
    have hlt : r.score < 2 :=
      of_decide_eq_true (List.mem_filter.mp hmem).2
    linarith

/-- C5 witness: scores `0.3`, `0.9`, `1.5` land in blue, yellow, grey, and
the scenario row with score `2.5` is dropped. -/
theorem claim_thresholds_witness :
    classify (3 / 10) = ("#1C73BE", 2) ∧
    classify (9 / 10) = ("#F7CE12", 1) ∧
    classify (3 / 2) = ("#D3D3D3", 0) ∧
    (⟨9, 11, 5 / 2⟩ : PairRecord) ∉ retained_rows scenarioTable :=
  ⟨(claim_thresholds (3/10) default scenarioTable).2.1
      (by norm_num) (by norm_num),
   (claim_thresholds (9/10) default scenarioTable).2.2.1
      (by norm_num) (by norm_num),
   (claim_thresholds (3/2) default scenarioTable).2.2.2.2.1 (by norm_num),
   (claim_thresholds 0 ⟨9, 11, 5/2⟩ scenarioTable).2.2.2.2.2 (by norm_num)⟩

/-- C10: with `end_nt ≤ sequence_length` the render always succeeds — no
check compares `start_nt` or the pair coordinates against `1` or
`sequence_length` — the drawn arcs are exactly the score-retained rows
whose two coordinates lie in `[start_nt, end_nt]` (out-of-bounds records
included), and the header length is consulted for nothing but the
`end_nt` comparison: any other header value `L ≥ end_nt` yields the
identical canvas. -/
theorem claim_no_bounds_checks (t : ProbabilityTable) (s e L : Int)
    (nm : String) (h : e ≤ t.totalLength) (hL : e ≤ L) :
    rendersOk (generate_arc_plot_pdf s e t nm) = true ∧
    ((canvasOf (generate_arc_plot_pdf s e t nm)).patches).Perm
        ((window_rows t s e).map mkArcEntry) ∧
    (generate_arc_plot_pdf s e t nm).map Prod.fst =
      (generate_arc_plot_pdf s e { totalLength := L, pairs := t.pairs }
        nm).map Prod.fst := by
  refine ⟨?_, ?_, ?_⟩
  · rw [generate_pdf_eq_ok s e t nm h]
    rfl
  · rw [canvasOf_pdf s e t nm h, canvas_model_patches, arc_entries_eq_map]
    exact sortByPriority_perm _
  · rw [generate_pdf_eq_ok s e t nm h,
      generate_pdf_eq_ok s e { totalLength := L, pairs := t.pairs } nm hL]
    rfl

/-- A table whose only record lies outside `[1, sequence_length]`. -/
def outOfBoundsTable : ProbabilityTable :=
  { totalLength := 10, pairs := [⟨-3, 5, 1/2⟩] }

/-- C10 witness: `start_nt = -5 < 1` and a record with `i = -3 < 1` render
without error, the record is drawn because both coordinates lie in the
window, and enlarging the header length changes nothing. -/
theorem claim_no_bounds_checks_witness :
    rendersOk (generate_arc_plot_pdf (-5) 10 outOfBoundsTable "AA") = true ∧
    ((canvasOf (generate_arc_plot_pdf (-5) 10 outOfBoundsTable "AA")).patches).Perm
        ((window_rows outOfBoundsTable (-5) 10).map mkArcEntry) ∧
    (generate_arc_plot_pdf (-5) 10 outOfBoundsTable "AA").map Prod.fst =
      (generate_arc_plot_pdf (-5) 10
        { totalLength := 12, pairs := outOfBoundsTable.pairs } "AA").map
          Prod.fst :=
  claim_no_bounds_checks outOfBoundsTable (-5) 10 12 "AA" (by decide)
    (by decide)

/-- A table whose only pair has `j ≤ end_nt` and `i ≥ start_nt` but `i`
outside the window, so the height filter of the code admits it while no
arc is drawn. -/
def skewedTable : ProbabilityTable :=
  { totalLength := 30, pairs := [⟨25, 10, 1/2⟩] }

/-- C4 counterexample: for the window `[1, 20]` and the single record
`(i = 25, j = 10)` no arc falls within the window, so the claim requires
`height_units = 0`; the code's height filter (`j ≤ end_nt` and
`i ≥ start_nt`) nevertheless admits the record and produces the negative
height `((10 - 25) / 2) / 4 = -15/8`. -/
theorem claim_height_scaling_cex :
    (canvasOf (generate_arc_plot_pdf 1 20 skewedTable "AA")).figHeight =
        (-15) / 8 ∧
    spec_max_half_span skewedTable 1 20 / 4 = 0 ∧
    ¬ ((-15 : ℚ) / 8 = 0) := by
  with_unfolding_all decide

/-- C4 amended: the code's height filter keeps the rows with `i ≥ start_nt`
and `j ≤ end_nt`, which coincides with "both coordinates in the window"
only when every record satisfies `i ≤ j`.  Under that proviso the claim
holds: the height is `max_half_span / 4` with `max_half_span` the maximum
of `span / 2` over the retained rows falling fully within the window (`0`
if none qualifies), an empty window yields zero arcs, and no error is
raised. -/
theorem claim_height_scaling_amended (s e : Int) (t : ProbabilityTable)
    (nm : String) (h : e ≤ t.totalLength)
    (hij : ∀ r ∈ t.pairs, r.i ≤ r.j) :
    (canvasOf (generate_arc_plot_pdf s e t nm)).figHeight =
        spec_max_half_span t s e / 4 ∧
    rendersOk (generate_arc_plot_pdf s e t nm) = true ∧
    (window_rows t s e = [] →
      (canvasOf (generate_arc_plot_pdf s e t nm)).patches = []) := by
  have hfilter : (retained_rows t).filter
      (fun r => decide (r.j ≤ e) && decide (s ≤ r.i)) =
      t.pairs.filter (fun r => decide (r.score < 2) && in_window s e r) := by
    unfold retained_rows
    rw [List.filter_filter]
    apply List.filter_congr
    intro r hr
    have hij' := hij r hr
    apply Bool.coe_iff_coe.mp
    simp only [in_window, Bool.and_eq_true, decide_eq_true_eq]
    constructor
    · rintro ⟨⟨h1, h2⟩, h3⟩
      exact ⟨h3, ⟨⟨⟨h2, le_trans hij' h1⟩, le_trans h2 hij'⟩, h1⟩⟩
    · rintro ⟨h3, ⟨⟨⟨hsi, _⟩, _⟩, hje⟩⟩
      exact ⟨⟨hje, hsi⟩, h3⟩
  have hmain : (canvas_model s e t).figHeight = spec_max_half_span t s e / 4 := by
    show (if ((retained_rows t).filter
          (fun r => decide (r.j ≤ e) && decide (s ≤ r.i))).isEmpty
        then (0 : ℚ)
        else maxListQ (((retained_rows t).filter
          (fun r => decide (r.j ≤ e) && decide (s ≤ r.i))).map
            (fun r => (r.j : ℚ) - (r.i : ℚ))) / 2) / 4 =
      spec_max_half_span t s e / 4
    rw [hfilter]
    unfold spec_max_half_span
    by_cases hq : (t.pairs.filter
        (fun r => decide (r.score < 2) && in_window s e r)).isEmpty
    · rw [if_pos hq, if_pos hq]
    · rw [if_neg hq, if_neg hq]
      congr 1
      have habs : (t.pairs.filter
            (fun r => decide (r.score < 2) && in_window s e r)).map
              (fun r => |(r.j : ℚ) - (r.i : ℚ)| / 2) =
          ((t.pairs.filter
            (fun r => decide (r.score < 2) && in_window s e r)).map
              (fun r => (r.j : ℚ) - (r.i : ℚ))).map (fun x => x / 2) := by
        rw [List.map_map]
        apply List.map_congr_left
        intro r hrq
        have hrp : r ∈ t.pairs := (List.mem_filter.mp hrq).1
        have hij' : r.i ≤ r.j := hij r hrp
        have hnn : (0 : ℚ) ≤ (r.j : ℚ) - (r.i : ℚ) := by
          have hc : (r.i : ℚ) ≤ (r.j : ℚ) := by exact_mod_cast hij'
          linarith
        show |(r.j : ℚ) - (r.i : ℚ)| / 2 = ((r.j : ℚ) - (r.i : ℚ)) / 2
        rw [abs_of_nonneg hnn]
      rw [habs, maxListQ_map_div_two]
  refine ⟨?_, ?_, ?_⟩
  · rw [canvasOf_pdf s e t nm h]
    exact hmain
  · rw [generate_pdf_eq_ok s e t nm h]
    rfl
  · intro hw
    rw [canvasOf_pdf s e t nm h, canvas_model_patches, arc_entries_eq_map]
    unfold window_rows at hw
    rw [hw]
    rfl

/-- C4 amended witness at the worked scenario table (all rows have
`i ≤ j`), whose tallest in-window arc has span 10:
`height_units = 5 / 4`. -/
theorem claim_height_scaling_amended_witness :
    (canvasOf (generate_arc_plot_pdf 1 20 scenarioTable "AA")).figHeight =
      spec_max_half_span scenarioTable 1 20 / 4 :=
  (claim_height_scaling_amended 1 20 scenarioTable "AA" (by decide)
    (by with_unfolding_all decide)).1
